import Mathlib

/-!
# Verification of the ar_back catalog-and-favorites backend

Shallow embedding of the Flask backend (`models.py`, `auth/auth_routes.py`,
`products/product_routes.py`, `app.py`) and proofs about its favorites
engine, login, categories endpoints and pagination.

Modelling conventions:
* The SQLAlchemy store is a record of lists; `query.get` / `filter_by(...).first()`
  become `List.find?`, `filter_by(...).all()` / bulk delete become `List.filter`,
  row deletion becomes `List.eraseP`.
* `db.Float` prices are modelled as `Int`: only their ordering is exercised by
  the routes under verification.
* `db.DateTime` values are modelled as `Nat` timestamps; `datetime.utcnow` at
  insert time becomes an explicit `now` argument.
* SQL `ORDER BY` and Python `sorted` become a stable `List.insertionSort` by
  the corresponding key; Python's string order (code-point lexicographic) is
  `strLe`.
* Product fields never read by the verified routes (description, image paths,
  material, color, dimensions, stock flag) are omitted from the embedding.
-/

namespace ArBack

/-- Code-point lexicographic order on character lists: the order Python's
`sorted` induces on strings. -/
def charListLe : List Char → List Char → Bool
  | [], _ => true
  | _ :: _, [] => false
  | a :: as, b :: bs => if a = b then charListLe as bs else decide (a < b)

/-- Python string comparison `a <= b` (code-point lexicographic). -/
def strLe (a b : String) : Bool := charListLe a.data b.data

/-- Python `int(s)` on a string: optional sign followed by decimal digits,
`none` when unparseable. (Python additionally strips surrounding whitespace
and allows digit-group underscores; those inputs are not exercised here.) -/
def digitsToNat (acc : Nat) : List Char → Option Nat
  | [] => some acc
  | c :: cs => if c.isDigit then digitsToNat (acc * 10 + (c.toNat - 48)) cs else none

/-- See `digitsToNat`. -/
def parseInt? (s : String) : Option Int :=
  match s.data with
  | [] => none
  | '-' :: cs => if cs = [] then none else (digitsToNat 0 cs).map (fun n => -(n : Int))
  | '+' :: cs => if cs = [] then none else (digitsToNat 0 cs).map (fun n => (n : Int))
  | cs => (digitsToNat 0 cs).map (fun n => (n : Int))

/-- Flask `request.args.get(key, default, type=int)`: a missing or
unparseable value silently yields the default. -/
def argsGetInt (arg : Option String) (default : Int) : Int :=
  match arg with
  | none => default
  | some s => (parseInt? s).getD default

/-! ## Data model (`models.py`) -/

/-- Model of `User` (models.py, MODEL 1). The password credential is the opaque
`password_hash`; `created_at` is never read by the verified routes. -/
structure User where
  id : Nat
  email : String
  username : String
  password_hash : String
  full_name : String
deriving Repr, DecidableEq

/-- Model of `Product` (models.py, MODEL 2), restricted to the fields the verified
routes read: id, name, price and nullable category. -/
structure Product where
  id : Nat
  name : String
  price : Int
  category : Option String
deriving Repr, DecidableEq

/-- Model of `UserFavorite` (models.py, LINK TABLE): generated id, the
(user_id, product_id) pair and the added-at timestamp. -/
structure UserFavorite where
  id : Nat
  user_id : Nat
  product_id : Nat
  added_at : Nat
deriving Repr, DecidableEq

/-- The persistent store: the three tables plus the generator for the next
`UserFavorite.id`. -/
structure DB where
  users : List User
  products : List Product
  favorites : List UserFavorite
  next_favorite_id : Nat
deriving Repr, DecidableEq

/-- Lookup `User.query.get(user_id)`. -/
def DB.getUser (db : DB) (user_id : Nat) : Option User :=
  db.users.find? (fun u => u.id == user_id)

/-- Lookup `Product.query.get(product_id)`. -/
def DB.getProduct (db : DB) (product_id : Nat) : Option Product :=
  db.products.find? (fun p => p.id == product_id)

/-- The row predicate of `UserFavorite.query.filter_by(user_id=..., product_id=...)`. -/
def favMatches (user_id product_id : Nat) (f : UserFavorite) : Bool :=
  f.user_id == user_id && f.product_id == product_id

/-- Lookup `UserFavorite.query.filter_by(user_id=..., product_id=...).first()`. -/
def DB.findFavorite (db : DB) (user_id product_id : Nat) : Option UserFavorite :=
  db.favorites.find? (favMatches user_id product_id)

/-- The uniqueness constraint `unique_user_product` of models.py line 110:
no two favorite rows share a (user_id, product_id) pair. -/
def FavoritesUnique (db : DB) : Prop :=
  (db.favorites.map (fun f => (f.user_id, f.product_id))).Nodup

instance (db : DB) : Decidable (FavoritesUnique db) := by
  unfold FavoritesUnique; infer_instance

/-! ## Login (`auth/auth_routes.py`, route 2) -/

/-- Truthiness of `data.get(key)` for a JSON string field: present and
non-empty. -/
def strTruthy : Option String → Bool
  | none => false
  | some s => s != ""

/-- The login response: HTTP status, the `success` flag, the `message`, and
on success the authenticated user's id (the subject `str(user.id)` embedded
in the issued token). -/
structure LoginResp where
  status : Nat
  success : Bool
  message : String
  user_id : Option Nat
deriving Repr, DecidableEq

/-- Model of `login` (auth_routes.py lines 82-129), parameterized by the external
credential-hashing library's `check_password_hash` as `checkpw`. -/
def login (checkpw : String → String → Bool) (db : DB)
    (email password : Option String) : LoginResp :=
  if !(strTruthy email) || !(strTruthy password) then
    ⟨400, false, "Email и пароль обязательны", none⟩
  else
    match db.users.find? (fun u => u.email == email.getD "") with
    | none => ⟨401, false, "Неправильный email или пароль", none⟩
    | some user =>
      if !(checkpw user.password_hash (password.getD "")) then
        ⟨401, false, "Неправильный email или пароль", none⟩
      else
        ⟨200, true, "Вход успешен", some user.id⟩

/-! ## Categories (`products/product_routes.py` route 3, `app.py` /api/categories) -/

/-- Model of `db.session.query(Product.category).distinct().filter(Product.category != None).all()`:
the distinct non-null category values. -/
def distinctNonNullCategories (db : DB) : List String :=
  (db.products.filterMap Product.category).dedup

/-- Model of `get_categories` of product_routes.py lines 77-94:
`sorted([cat[0] for cat in categories])`. -/
def get_categories_products_route (db : DB) : List String :=
  (distinctNonNullCategories db).insertionSort (fun a b => strLe a b = true)

/-- Model of `get_categories` of app.py lines 43-59:
`sorted([cat[0] for cat in categories if cat[0]])` — note the extra
truthiness filter dropping empty-string categories. -/
def get_categories_app_route (db : DB) : List String :=
  ((distinctNonNullCategories db).filter (fun s => s != "")).insertionSort
    (fun a b => strLe a b = true)

/-! ## Favorites routes (`products/product_routes.py` routes 4-8) -/

/-- Response of `add_to_favorite`: the post-state, status, `success`,
`message` and the created favorite when one was created. -/
structure AddResp where
  db : DB
  status : Nat
  success : Bool
  message : String
  favorite : Option UserFavorite
deriving Repr, DecidableEq

/-- Model of `add_to_favorite` (product_routes.py lines 99-153). `now` is
`datetime.utcnow` at commit time. -/
def add_to_favorite (db : DB) (user_id product_id : Nat) (now : Nat) : AddResp :=
  match db.getUser user_id with
  | none => ⟨db, 404, false, "User not found", none⟩
  | some _ =>
    match db.getProduct product_id with
    | none => ⟨db, 404, false, "Product not found", none⟩
    | some _ =>
      match db.findFavorite user_id product_id with
      | some _ => ⟨db, 409, false, "Product already in favorites", none⟩
      | none =>
        let fav : UserFavorite := ⟨db.next_favorite_id, user_id, product_id, now⟩
        ⟨{ db with favorites := db.favorites ++ [fav],
                   next_favorite_id := db.next_favorite_id + 1 },
         201, true, "Product added to favorites", some fav⟩

/-- Response of `remove_from_favorite` and of the other mutating routes that
return no favorite payload. -/
structure RemoveResp where
  db : DB
  status : Nat
  success : Bool
  message : String
deriving Repr, DecidableEq

/-- Model of `remove_from_favorite` (product_routes.py lines 158-193):
`db.session.delete` of the first matching row. -/
def remove_from_favorite (db : DB) (user_id product_id : Nat) : RemoveResp :=
  match db.findFavorite user_id product_id with
  | none => ⟨db, 404, false, "Product is not in favorites"⟩
  | some _ =>
    ⟨{ db with favorites := db.favorites.eraseP (favMatches user_id product_id) },
     200, true, "Product removed from favorites"⟩

/-- Response of `is_favorite`. -/
structure IsFavResp where
  status : Nat
  success : Bool
  is_favorite : Bool
deriving Repr, DecidableEq

/-- Model of `is_favorite` (product_routes.py lines 198-222). -/
def is_favorite (db : DB) (user_id product_id : Nat) : IsFavResp :=
  ⟨200, true, (db.findFavorite user_id product_id).isSome⟩

/-- The joined product of a favorite row (`fav.product`). -/
def productOf (db : DB) (f : UserFavorite) : Option Product :=
  db.getProduct f.product_id

/-- The sort key `Product.price` of a favorite's joined product. -/
def priceKey (db : DB) (f : UserFavorite) : Int :=
  ((productOf db f).map Product.price).getD 0

/-- The sort key `Product.name` of a favorite's joined product. -/
def nameKey (db : DB) (f : UserFavorite) : String :=
  ((productOf db f).map Product.name).getD ""

/-- Model of `query.join(Product)`: the inner join keeps the favorite rows whose
product exists. -/
def joinProducts (db : DB) (favs : List UserFavorite) : List UserFavorite :=
  favs.filter (fun f => (productOf db f).isSome)

/-- The sorting block of `get_my_favorites` (product_routes.py lines 254-262). -/
def sortFavorites (db : DB) (sort_by : String) (favs : List UserFavorite) :
    List UserFavorite :=
  if sort_by = "price_asc" then
    (joinProducts db favs).insertionSort (fun a b => priceKey db a ≤ priceKey db b)
  else if sort_by = "price_desc" then
    (joinProducts db favs).insertionSort (fun a b => priceKey db b ≤ priceKey db a)
  else if sort_by = "newest" then
    favs.insertionSort (fun a b => b.added_at ≤ a.added_at)
  else
    (joinProducts db favs).insertionSort
      (fun a b => strLe (nameKey db a) (nameKey db b) = true)

/-- Response of `get_my_favorites`: status, `success`, the reported fields
`count`, `page`, `per_page`, `total_pages` and the page of favorite rows
(each serialized through its joined product by the route). -/
structure ListResp where
  status : Nat
  success : Bool
  count : Nat
  page : Int
  per_page : Int
  total_pages : Nat
  favorites : List UserFavorite
deriving Repr, DecidableEq

/-- Model of `get_my_favorites` after query-parameter extraction (product_routes.py
lines 243-277): clamping, filtering, sorting, `query.count()` and
`query.paginate(page=page, per_page=per_page, error_out=False)` whose
`.pages` is `ceil(total / per_page)` (0 when total is 0). -/
def get_my_favorites_core (db : DB) (user_id : Nat) (page0 per_page0 : Int)
    (sort_by : String) : ListResp :=
  let page := if page0 < 1 then 1 else page0
  let per_page := if per_page0 < 1 then 12 else per_page0
  let per_page := if per_page > 100 then 100 else per_page
  let favs := db.favorites.filter (fun f => f.user_id == user_id)
  let sorted := sortFavorites db sort_by favs
  let total := sorted.length
  let items := (sorted.drop ((page.toNat - 1) * per_page.toNat)).take per_page.toNat
  ⟨200, true, total, page, per_page,
   (total + per_page.toNat - 1) / per_page.toNat, items⟩

/-- Model of `get_my_favorites` (product_routes.py lines 227-282) including the
query-parameter extraction of lines 239-241. -/
def get_my_favorites (db : DB) (user_id : Nat)
    (pageArg per_pageArg sort_byArg : Option String) : ListResp :=
  get_my_favorites_core db user_id (argsGetInt pageArg 1) (argsGetInt per_pageArg 12)
    (sort_byArg.getD "name")

/-- Response of `clear_all_favorites`. -/
structure ClearResp where
  db : DB
  status : Nat
  success : Bool
  message : String
  deleted_count : Nat
deriving Repr, DecidableEq

/-- Model of `clear_all_favorites` (product_routes.py lines 287-315). -/
def clear_all_favorites (db : DB) (user_id : Nat) : ClearResp :=
  let count := (db.favorites.filter (fun f => f.user_id == user_id)).length
  ⟨{ db with favorites := db.favorites.filter (fun f => !(f.user_id == user_id)) },
   200, true, s!"Deleted {count} products from favorites", count⟩

/-- The number of favorite rows a user owns. -/
def userFavCount (db : DB) (user_id : Nat) : Nat :=
  (db.favorites.filter (fun f => f.user_id == user_id)).length

/-! ## Concrete fixtures used to instantiate the theorems -/

/-- A registered user. -/
def aliceU : User := ⟨1, "a@x.com", "alice", "pw-hash", "Alice"⟩

/-- A catalog product. -/
def chairP : Product := ⟨7, "Chair", 100, some "chairs"⟩

/-- A second catalog product. -/
def tableP : Product := ⟨8, "Table", 50, some "tables"⟩

/-- A store with one user, two products and one favorite (alice, table). -/
def exDB : DB := ⟨[aliceU], [chairP, tableP], [⟨0, 1, 8, 5⟩], 1⟩

/-- A store whose single product has the empty string as its category. -/
def exEmptyCatDB : DB := ⟨[], [⟨1, "Shelf", 10, some ""⟩], [], 1⟩

/-- A store in which alice has 25 favorites of one product. -/
def exDB25 : DB := ⟨[aliceU], [chairP], (List.range 25).map (fun i => ⟨i, 1, 7, i⟩), 25⟩

/-! ## Helper lemmas -/

theorem charListLe_total : ∀ a b : List Char, charListLe a b = true ∨ charListLe b a = true
  | [], _ => Or.inl rfl
  | _ :: _, [] => Or.inr rfl
  | a :: as, b :: bs => by
    by_cases h : a = b
    · subst h
      simpa [charListLe] using charListLe_total as bs
    · rcases lt_or_gt_of_ne h with hlt | hgt
      · left; simp [charListLe, h, hlt]
      · right; simp [charListLe, Ne.symm h, hgt]

theorem charListLe_trans : ∀ (a b c : List Char),
    charListLe a b = true → charListLe b c = true → charListLe a c = true
  | [], _, _, _, _ => rfl
  | _ :: _, [], _, h, _ => by simp [charListLe] at h
  | _ :: _, _ :: _, [], _, h => by simp [charListLe] at h
  | x :: xs, y :: ys, z :: zs, h1, h2 => by
    simp only [charListLe] at h1 h2 ⊢
    by_cases hxy : x = y <;> by_cases hyz : y = z
    · subst hxy; subst hyz
      rw [if_pos rfl] at h1 h2 ⊢
      exact charListLe_trans xs ys zs h1 h2
    · subst hxy
      rw [if_neg hyz] at h2 ⊢
      exact h2
    · subst hyz
      rw [if_neg hxy] at h1 ⊢
      exact h1
    · rw [if_neg hxy] at h1
      rw [if_neg hyz] at h2
      have hxz : x < z := lt_trans (of_decide_eq_true h1) (of_decide_eq_true h2)
      rw [if_neg (ne_of_lt hxz)]
      exact decide_eq_true hxz

theorem strLe_total (a b : String) : strLe a b = true ∨ strLe b a = true :=
  charListLe_total a.data b.data

theorem strLe_trans {a b c : String} (h1 : strLe a b = true) (h2 : strLe b c = true) :
    strLe a c = true :=
  charListLe_trans a.data b.data c.data h1 h2

theorem pairwise_take_drop {α : Type} {r : α → α → Prop} {l : List α} (n m : Nat)
    (h : l.Pairwise r) : ((l.drop n).take m).Pairwise r :=
  h.sublist ((List.take_sublist _ _).trans (List.drop_sublist _ _))

theorem joinProducts_eq_self (db : DB) (favs : List UserFavorite)
    (h : ∀ f ∈ favs, (productOf db f).isSome = true) : joinProducts db favs = favs :=
  List.filter_eq_self.mpr h

theorem sortFavorites_length (db : DB) (s : String) (favs : List UserFavorite)
    (h : ∀ f ∈ favs, (productOf db f).isSome = true) :
    (sortFavorites db s favs).length = favs.length := by
  unfold sortFavorites
  rw [joinProducts_eq_self db favs h]
  split_ifs <;> exact (List.perm_insertionSort _ _).length_eq

theorem sortFavorites_nil (db : DB) (s : String) : sortFavorites db s [] = [] := by
  unfold sortFavorites joinProducts
  split_ifs <;> rfl

theorem favMatches_pair {user_id product_id : Nat} {f : UserFavorite}
    (h : favMatches user_id product_id f = true) :
    (f.user_id, f.product_id) = (user_id, product_id) := by
  simp only [favMatches, Bool.and_eq_true, beq_iff_eq] at h
  simp [h.1, h.2]

theorem find?_eraseP_of_pairs_nodup (user_id product_id : Nat) :
    ∀ l : List UserFavorite,
      (l.map (fun f => (f.user_id, f.product_id))).Nodup →
      (l.eraseP (favMatches user_id product_id)).find? (favMatches user_id product_id) = none
  | [], _ => rfl
  | a :: l, h => by
    simp only [List.map_cons, List.nodup_cons] at h
    obtain ⟨hnotin, hnodup⟩ := h
    by_cases ha : favMatches user_id product_id a = true
    · rw [List.eraseP_cons_of_pos ha, List.find?_eq_none]
      intro f hf hmatch
      apply hnotin
      rw [favMatches_pair ha, ← favMatches_pair hmatch]
      exact List.mem_map_of_mem _ hf
    · rw [List.eraseP_cons_of_neg ha, List.find?_cons_of_neg _ ha]
      exact find?_eraseP_of_pairs_nodup user_id product_id l hnodup

theorem core_empty_of_no_favs (db : DB) (user_id : Nat) (page per_page : Int)
    (sort_by : String)
    (h : db.favorites.filter (fun f => f.user_id == user_id) = []) :
    (get_my_favorites_core db user_id page per_page sort_by).count = 0 ∧
    (get_my_favorites_core db user_id page per_page sort_by).favorites = [] := by
  simp [get_my_favorites_core, h, sortFavorites_nil]

theorem addPreservesUnique (db : DB) (user_id product_id now : Nat)
    (h : FavoritesUnique db) :
    FavoritesUnique (add_to_favorite db user_id product_id now).db := by
  unfold add_to_favorite
  cases hu : db.getUser user_id
  · exact h
  cases hp : db.getProduct product_id
  · exact h
  cases hf : db.findFavorite user_id product_id
  · unfold FavoritesUnique at h ⊢
    simp only [List.map_append, List.map_cons, List.map_nil, List.nodup_append]
    refine ⟨h, List.nodup_singleton _, ?_⟩
    intro x hx hx2
    simp only [List.mem_singleton] at hx2
    subst hx2
    rw [DB.findFavorite, List.find?_eq_none] at hf
    obtain ⟨f, hfmem, hfeq⟩ := List.mem_map.mp hx
    refine hf f hfmem ?_
    simp only [favMatches, Bool.and_eq_true, beq_iff_eq]
    exact ⟨congrArg Prod.fst hfeq, congrArg Prod.snd hfeq⟩
  · exact h

theorem removePreservesUnique (db : DB) (user_id product_id : Nat)
    (h : FavoritesUnique db) :
    FavoritesUnique (remove_from_favorite db user_id product_id).db := by
  unfold remove_from_favorite
  cases hf : db.findFavorite user_id product_id
  · exact h
  · exact h.sublist ((List.eraseP_sublist db.favorites).map _)

theorem clearPreservesUnique (db : DB) (user_id : Nat) (h : FavoritesUnique db) :
    FavoritesUnique (clear_all_favorites db user_id).db :=
  h.sublist ((List.filter_sublist db.favorites).map _)

theorem core_favorites_pairwise (db : DB) (user_id : Nat) (page per_page : Int)
    (sort_by : String) {r : UserFavorite → UserFavorite → Prop}
    (h : (sortFavorites db sort_by
        (db.favorites.filter (fun f => f.user_id == user_id))).Pairwise r) :
    (get_my_favorites_core db user_id page per_page sort_by).favorites.Pairwise r := by
  unfold get_my_favorites_core
  exact pairwise_take_drop _ _ h

theorem sortFavorites_sorted_price_asc (db : DB) (favs : List UserFavorite) :
    (sortFavorites db "price_asc" favs).Pairwise
      (fun a b => priceKey db a ≤ priceKey db b) := by
  unfold sortFavorites
  rw [if_pos rfl]
  haveI : IsTotal UserFavorite (fun a b => priceKey db a ≤ priceKey db b) :=
    ⟨fun a b => le_total _ _⟩
  haveI : IsTrans UserFavorite (fun a b => priceKey db a ≤ priceKey db b) :=
    ⟨fun _ _ _ h1 h2 => le_trans h1 h2⟩
  exact List.sorted_insertionSort _ _

theorem sortFavorites_sorted_price_desc (db : DB) (favs : List UserFavorite) :
    (sortFavorites db "price_desc" favs).Pairwise
      (fun a b => priceKey db b ≤ priceKey db a) := by
  unfold sortFavorites
  rw [if_neg (by decide), if_pos rfl]
  haveI : IsTotal UserFavorite (fun a b => priceKey db b ≤ priceKey db a) :=
    ⟨fun a b => le_total _ _⟩
  haveI : IsTrans UserFavorite (fun a b => priceKey db b ≤ priceKey db a) :=
    ⟨fun _ _ _ h1 h2 => le_trans h2 h1⟩
  exact List.sorted_insertionSort _ _

theorem sortFavorites_sorted_newest (db : DB) (favs : List UserFavorite) :
    (sortFavorites db "newest" favs).Pairwise
      (fun a b => b.added_at ≤ a.added_at) := by
  unfold sortFavorites
  rw [if_neg (by decide), if_neg (by decide), if_pos rfl]
  haveI : IsTotal UserFavorite (fun a b => b.added_at ≤ a.added_at) :=
    ⟨fun a b => le_total _ _⟩
  haveI : IsTrans UserFavorite (fun a b => b.added_at ≤ a.added_at) :=
    ⟨fun _ _ _ h1 h2 => le_trans h2 h1⟩
  exact List.sorted_insertionSort _ _

theorem sortFavorites_sorted_name (db : DB) (favs : List UserFavorite)
    (sort_by : String) (h1 : sort_by ≠ "price_asc") (h2 : sort_by ≠ "price_desc")
    (h3 : sort_by ≠ "newest") :
    (sortFavorites db sort_by favs).Pairwise
      (fun a b => strLe (nameKey db a) (nameKey db b) = true) := by
  unfold sortFavorites
  rw [if_neg h1, if_neg h2, if_neg h3]
  haveI : IsTotal UserFavorite
      (fun a b => strLe (nameKey db a) (nameKey db b) = true) :=
    ⟨fun a b => strLe_total _ _⟩
  haveI : IsTrans UserFavorite
      (fun a b => strLe (nameKey db a) (nameKey db b) = true) :=
    ⟨fun _ _ _ ha hb => strLe_trans ha hb⟩
  exact List.sorted_insertionSort _ _

/-! ## Claims -/

/-- Claim C1: at most one Favorite record exists per (user id, product id)
pair; Add, Remove and ClearAll each preserve this uniqueness invariant, and
an Add on a pair that is already present (with its user and product rows
existing, as referential integrity guarantees) fails with a 409 conflict and
leaves the store unchanged, creating and overwriting nothing. -/
theorem favorites_pair_uniqueness_invariant (db : DB) (user_id product_id now : Nat)
    (h : FavoritesUnique db) :
    FavoritesUnique (add_to_favorite db user_id product_id now).db ∧
    FavoritesUnique (remove_from_favorite db user_id product_id).db ∧
    FavoritesUnique (clear_all_favorites db user_id).db ∧
    ((db.getUser user_id).isSome = true → (db.getProduct product_id).isSome = true →
      (db.findFavorite user_id product_id).isSome = true →
      (add_to_favorite db user_id product_id now).status = 409 ∧
      (add_to_favorite db user_id product_id now).db = db) := by
  refine ⟨addPreservesUnique db user_id product_id now h,
    removePreservesUnique db user_id product_id h,
    clearPreservesUnique db user_id h, ?_⟩
  intro hu hp hf
  obtain ⟨u, hu⟩ := Option.isSome_iff_exists.mp hu
  obtain ⟨p, hp⟩ := Option.isSome_iff_exists.mp hp
  obtain ⟨f, hf⟩ := Option.isSome_iff_exists.mp hf
  simp [add_to_favorite, hu, hp, hf]

/-- Witness for C1 at the concrete store `exDB`, whose favorite (1, 8) is
present: uniqueness is preserved by an insert of the absent pair (1, 7), and
the duplicate add of (1, 8) answers 409 leaving the store unchanged. -/
theorem favorites_pair_uniqueness_invariant_witness :
    FavoritesUnique (add_to_favorite exDB 1 7 10).db ∧
    (add_to_favorite exDB 1 8 10).status = 409 ∧
    (add_to_favorite exDB 1 8 10).db = exDB := by
  refine ⟨(favorites_pair_uniqueness_invariant exDB 1 7 10 (by decide)).1, ?_, ?_⟩
  · exact ((favorites_pair_uniqueness_invariant exDB 1 8 10 (by decide)).2.2.2
      (by decide) (by decide) (by decide)).1
  · exact ((favorites_pair_uniqueness_invariant exDB 1 8 10 (by decide)).2.2.2
      (by decide) (by decide) (by decide)).2

/-- Claim C2: Add answers 404 "User not found" when the user is missing,
404 "Product not found" (a distinguishable message) when the product is
missing, 409 with no change when the pair is already favorited, and
otherwise appends exactly one favorite row carrying added-at = now and
returns it with status 201. -/
theorem add_to_favorite_spec (db : DB) (user_id product_id now : Nat) :
    (db.getUser user_id = none →
      (add_to_favorite db user_id product_id now).status = 404 ∧
      (add_to_favorite db user_id product_id now).message = "User not found" ∧
      (add_to_favorite db user_id product_id now).db = db) ∧
    (∀ u, db.getUser user_id = some u → db.getProduct product_id = none →
      (add_to_favorite db user_id product_id now).status = 404 ∧
      (add_to_favorite db user_id product_id now).message = "Product not found" ∧
      (add_to_favorite db user_id product_id now).db = db) ∧
    (∀ u p, db.getUser user_id = some u → db.getProduct product_id = some p →
      (db.findFavorite user_id product_id).isSome = true →
      (add_to_favorite db user_id product_id now).status = 409 ∧
      (add_to_favorite db user_id product_id now).db = db ∧
      (add_to_favorite db user_id product_id now).favorite = none) ∧
    (∀ u p, db.getUser user_id = some u → db.getProduct product_id = some p →
      db.findFavorite user_id product_id = none →
      (add_to_favorite db user_id product_id now).status = 201 ∧
      (∃ fav, (add_to_favorite db user_id product_id now).favorite = some fav ∧
        fav.user_id = user_id ∧ fav.product_id = product_id ∧ fav.added_at = now ∧
        (add_to_favorite db user_id product_id now).db.favorites =
          db.favorites ++ [fav])) := by
  refine ⟨?_, ?_, ?_, ?_⟩
  · intro hu
    simp [add_to_favorite, hu]
  · intro u hu hp
    simp [add_to_favorite, hu, hp]
  · intro u p hu hp hf
    obtain ⟨f, hf⟩ := Option.isSome_iff_exists.mp hf
    simp [add_to_favorite, hu, hp, hf]
  · intro u p hu hp hf
    refine ⟨by simp [add_to_favorite, hu, hp, hf], ?_⟩
    refine Exists.intro (⟨db.next_favorite_id, user_id, product_id, now⟩ : UserFavorite) ?_
    refine ⟨?_, rfl, rfl, rfl, ?_⟩
    · simp [add_to_favorite, hu, hp, hf]
    · simp [add_to_favorite, hu, hp, hf]

/-- Witness for C2 at `exDB`: user 2 is unknown, product 99 is unknown,
(1, 8) is already favorited, and (1, 7) is freshly favorited with
added-at 10 under status 201. -/
theorem add_to_favorite_spec_witness :
    ((add_to_favorite exDB 2 7 10).status = 404 ∧
      (add_to_favorite exDB 2 7 10).message = "User not found") ∧
    ((add_to_favorite exDB 1 99 10).status = 404 ∧
      (add_to_favorite exDB 1 99 10).message = "Product not found") ∧
    ((add_to_favorite exDB 1 8 10).status = 409 ∧
      (add_to_favorite exDB 1 8 10).favorite = none) ∧
    ((add_to_favorite exDB 1 7 10).status = 201 ∧
      ∃ fav, (add_to_favorite exDB 1 7 10).favorite = some fav ∧
        fav.added_at = 10) := by
  refine ⟨?_, ?_, ?_, ?_⟩
  · have h := (add_to_favorite_spec exDB 2 7 10).1 (by decide)
    exact ⟨h.1, h.2.1⟩
  · have h := (add_to_favorite_spec exDB 1 99 10).2.1 aliceU (by decide) (by decide)
    exact ⟨h.1, h.2.1⟩
  · have h := (add_to_favorite_spec exDB 1 8 10).2.2.1 aliceU tableP (by decide)
      (by decide) (by decide)
    exact ⟨h.1, h.2.2⟩
  · have h := (add_to_favorite_spec exDB 1 7 10).2.2.2 aliceU chairP (by decide)
      (by decide) (by decide)
    obtain ⟨fav, hfav, _, _, hnow, _⟩ := h.2
    exact ⟨h.1, fav, hfav, hnow⟩

/-- Claim C3: a successful Add makes IsFavorite answer true for the pair; a
successful Remove makes IsFavorite answer false (given the pair-uniqueness
invariant the store enforces); and a Remove of an absent pair answers 404
and leaves the stored relation — hence every favorite count — unchanged. -/
theorem add_remove_is_favorite_spec (db : DB) (user_id product_id now : Nat)
    (huniq : FavoritesUnique db) :
    ((add_to_favorite db user_id product_id now).status = 201 →
      (is_favorite (add_to_favorite db user_id product_id now).db
        user_id product_id).is_favorite = true) ∧
    ((remove_from_favorite db user_id product_id).status = 200 →
      (is_favorite (remove_from_favorite db user_id product_id).db
        user_id product_id).is_favorite = false) ∧
    (db.findFavorite user_id product_id = none →
      (remove_from_favorite db user_id product_id).status = 404 ∧
      (remove_from_favorite db user_id product_id).db = db) := by
  refine ⟨?_, ?_, ?_⟩
  · intro hs
    unfold add_to_favorite at hs ⊢
    cases hu : db.getUser user_id <;> rw [hu] at hs
    · simp at hs
    cases hp : db.getProduct product_id <;> rw [hp] at hs
    · simp at hs
    cases hf : db.findFavorite user_id product_id <;> rw [hf] at hs
    · simp only [is_favorite, DB.findFavorite]
      apply List.find?_isSome.mpr
      exact ⟨⟨db.next_favorite_id, user_id, product_id, now⟩, by simp, by simp [favMatches]⟩
    · simp at hs
  · intro hs
    unfold remove_from_favorite at hs ⊢
    cases hf : db.findFavorite user_id product_id <;> rw [hf] at hs
    · simp at hs
    · simp only [is_favorite, DB.findFavorite]
      rw [find?_eraseP_of_pairs_nodup user_id product_id db.favorites huniq]
      rfl
  · intro hf
    simp [remove_from_favorite, hf]

/-- Witness for C3 at `exDB`: adding the absent pair (1, 7) makes it a
favorite, removing the present pair (1, 8) un-favorites it, and removing
the absent pair (1, 7) answers 404 with the store unchanged. -/
theorem add_remove_is_favorite_spec_witness :
    (is_favorite (add_to_favorite exDB 1 7 10).db 1 7).is_favorite = true ∧
    (is_favorite (remove_from_favorite exDB 1 8).db 1 8).is_favorite = false ∧
    (remove_from_favorite exDB 1 7).status = 404 ∧
    (remove_from_favorite exDB 1 7).db = exDB := by
  refine ⟨(add_remove_is_favorite_spec exDB 1 7 10 (by decide)).1 (by decide),
    (add_remove_is_favorite_spec exDB 1 8 10 (by decide)).2.1 (by decide), ?_, ?_⟩
  · exact ((add_remove_is_favorite_spec exDB 1 7 10 (by decide)).2.2 (by decide)).1
  · exact ((add_remove_is_favorite_spec exDB 1 7 10 (by decide)).2.2 (by decide)).2

/-- Claim C4: List normalizes its pagination inputs without error: a page
value below 1 is treated as 1, a per-page value below 1 as the default 12,
a per-page value above 100 as 100, and the operation succeeds (status 200)
with the clamped values. -/
theorem list_clamps_pagination_inputs (db : DB) (user_id : Nat)
    (page per_page : Int) (sort_by : String) :
    (get_my_favorites_core db user_id page per_page sort_by).status = 200 ∧
    (get_my_favorites_core db user_id page per_page sort_by).page = max 1 page ∧
    (get_my_favorites_core db user_id page per_page sort_by).per_page =
      (if per_page < 1 then 12 else min per_page 100) := by
  unfold get_my_favorites_core
  refine ⟨rfl, ?_, ?_⟩
  · dsimp only
    split_ifs <;> omega
  · dsimp only
    split_ifs <;> omega

/-- Claim C5: the page List returns is ordered by the requested key:
joined-product price ascending for "price_asc", price descending for
"price_desc", the favorite's added-at descending for "newest", and
joined-product name ascending for every other sort value, the default
included. -/
theorem list_sort_orders (db : DB) (user_id : Nat) (page per_page : Int) :
    ((get_my_favorites_core db user_id page per_page "price_asc").favorites.Pairwise
      (fun a b => priceKey db a ≤ priceKey db b)) ∧
    ((get_my_favorites_core db user_id page per_page "price_desc").favorites.Pairwise
      (fun a b => priceKey db b ≤ priceKey db a)) ∧
    ((get_my_favorites_core db user_id page per_page "newest").favorites.Pairwise
      (fun a b => b.added_at ≤ a.added_at)) ∧
    (∀ sort_by : String, sort_by ≠ "price_asc" → sort_by ≠ "price_desc" →
      sort_by ≠ "newest" →
      (get_my_favorites_core db user_id page per_page sort_by).favorites.Pairwise
        (fun a b => strLe (nameKey db a) (nameKey db b) = true)) :=
  ⟨core_favorites_pairwise db user_id page per_page "price_asc"
      (sortFavorites_sorted_price_asc db _),
   core_favorites_pairwise db user_id page per_page "price_desc"
      (sortFavorites_sorted_price_desc db _),
   core_favorites_pairwise db user_id page per_page "newest"
      (sortFavorites_sorted_newest db _),
   fun sort_by h1 h2 h3 => core_favorites_pairwise db user_id page per_page sort_by
      (sortFavorites_sorted_name db _ sort_by h1 h2 h3)⟩

/-- Witness for C5 at `exDB` with the default page bounds: the price-sorted
and the name-sorted (default sort value) page are each sorted by their key. -/
theorem list_sort_orders_witness :
    ((get_my_favorites_core exDB 1 1 12 "price_asc").favorites.Pairwise
      (fun a b => priceKey exDB a ≤ priceKey exDB b)) ∧
    ((get_my_favorites_core exDB 1 1 12 "name").favorites.Pairwise
      (fun a b => strLe (nameKey exDB a) (nameKey exDB b) = true)) :=
  ⟨(list_sort_orders exDB 1 1 12).1,
   (list_sort_orders exDB 1 1 12).2.2.2 "name" (by decide) (by decide) (by decide)⟩

/-- Claim C6: List pagination is offset-based and reports the total
independently of the requested page: over a store satisfying referential
integrity and for in-range (pre-clamped) page and per-page values, the
reported count is the user's favorite count N, total pages is
ceil(N / perPage) (0 when N = 0), the returned page holds
min(perPage, N - (page-1)*perPage) items, and a page past the end is empty
without error. Instantiated at 25 favorites and perPage 12 by the witness. -/
theorem list_pagination_spec (db : DB) (user_id : Nat) (page per_page : Int)
    (sort_by : String)
    (hint : ∀ f ∈ db.favorites, (productOf db f).isSome = true)
    (hp : 1 ≤ page) (hpp1 : 1 ≤ per_page) (hpp2 : per_page ≤ 100) :
    (get_my_favorites_core db user_id page per_page sort_by).count =
      userFavCount db user_id ∧
    (get_my_favorites_core db user_id page per_page sort_by).total_pages =
      (userFavCount db user_id + per_page.toNat - 1) / per_page.toNat ∧
    (get_my_favorites_core db user_id page per_page sort_by).favorites.length =
      min per_page.toNat
        (userFavCount db user_id - (page.toNat - 1) * per_page.toNat) ∧
    (userFavCount db user_id ≤ (page.toNat - 1) * per_page.toNat →
      (get_my_favorites_core db user_id page per_page sort_by).favorites = []) := by
  have hfsub : ∀ f ∈ db.favorites.filter (fun f => f.user_id == user_id),
      (productOf db f).isSome = true :=
    fun f hf => hint f (List.mem_of_mem_filter hf)
  have hlen := sortFavorites_length db sort_by _ hfsub
  unfold get_my_favorites_core
  dsimp only
  rw [if_neg (show ¬ (page < 1) by omega), if_neg (show ¬ (per_page < 1) by omega),
    if_neg (show ¬ (per_page > 100) by omega)]
  refine ⟨hlen, by rw [hlen]; rfl, ?_, ?_⟩
  · rw [List.length_take, List.length_drop, hlen]; rfl
  · intro hle
    rw [List.drop_eq_nil_of_le (by rw [hlen]; exact hle), List.take_nil]

/-- Witness for C6 at `exDB25` (25 favorites, perPage 12): the count is 25
on every page, total pages is 3, page 1 holds 12 items, page 3 holds 1 and
page 4 is empty. -/
theorem list_pagination_spec_witness :
    (get_my_favorites_core exDB25 1 1 12 "newest").count = 25 ∧
    (get_my_favorites_core exDB25 1 1 12 "newest").favorites.length = 12 ∧
    (get_my_favorites_core exDB25 1 3 12 "newest").favorites.length = 1 ∧
    (get_my_favorites_core exDB25 1 4 12 "newest").favorites = [] ∧
    (get_my_favorites_core exDB25 1 4 12 "newest").count = 25 ∧
    (get_my_favorites_core exDB25 1 1 12 "newest").total_pages = 3 := by
  have h1 := list_pagination_spec exDB25 1 1 12 "newest" (by decide) (by decide)
    (by decide) (by decide)
  have h3 := list_pagination_spec exDB25 1 3 12 "newest" (by decide) (by decide)
    (by decide) (by decide)
  have h4 := list_pagination_spec exDB25 1 4 12 "newest" (by decide) (by decide)
    (by decide) (by decide)
  refine ⟨?_, ?_, ?_, ?_, ?_, ?_⟩
  · rw [h1.1]; decide
  · rw [h1.2.2.1]; decide
  · rw [h3.2.2.1]; decide
  · exact h4.2.2.2 (by decide)
  · rw [h4.1]; decide
  · rw [h1.2.1]; decide

/-- Claim C7: ClearAll deletes every favorite owned by the user, reports the
pre-call count as deleted_count with status 200 (0 being a valid non-error
result), and any subsequent List for that user returns an empty page with
total 0. -/
theorem clear_all_favorites_spec (db : DB) (user_id : Nat) (page per_page : Int)
    (sort_by : String) :
    (clear_all_favorites db user_id).status = 200 ∧
    (clear_all_favorites db user_id).deleted_count = userFavCount db user_id ∧
    userFavCount (clear_all_favorites db user_id).db user_id = 0 ∧
    (get_my_favorites_core (clear_all_favorites db user_id).db user_id
      page per_page sort_by).count = 0 ∧
    (get_my_favorites_core (clear_all_favorites db user_id).db user_id
      page per_page sort_by).favorites = [] := by
  have hnil : (clear_all_favorites db user_id).db.favorites.filter
      (fun f => f.user_id == user_id) = [] := by
    simp only [clear_all_favorites]
    rw [List.filter_eq_nil_iff]
    intro f hf
    have hne := (List.mem_filter.mp hf).2
    simp only [Bool.not_eq_eq_eq_not, Bool.not_true, beq_eq_false_iff_ne] at hne
    simpa using hne
  exact ⟨rfl, rfl, by unfold userFavCount; rw [hnil]; rfl,
    (core_empty_of_no_favs _ _ page per_page sort_by hnil).1,
    (core_empty_of_no_favs _ _ page per_page sort_by hnil).2⟩

/-- Claim C8: the login failures for an email matching no user and for an
existing email with a wrong password are indistinguishable: both runs
produce the identical response — status 401 with the same generic message —
revealing nothing about which field was wrong. -/
theorem login_failure_indistinguishable (checkpw : String → String → Bool)
    (db : DB) (e1 p1 e2 p2 : String) (u : User)
    (he1 : e1 ≠ "") (hq1 : p1 ≠ "") (he2 : e2 ≠ "") (hq2 : p2 ≠ "")
    (habsent : db.users.find? (fun v => v.email == e1) = none)
    (hfound : db.users.find? (fun v => v.email == e2) = some u)
    (hwrong : checkpw u.password_hash p2 = false) :
    login checkpw db (some e1) (some p1) = login checkpw db (some e2) (some p2) ∧
    (login checkpw db (some e1) (some p1)).status = 401 ∧
    (login checkpw db (some e1) (some p1)).message =
      "Неправильный email или пароль" := by
  have h1 : login checkpw db (some e1) (some p1) =
      ⟨401, false, "Неправильный email или пароль", none⟩ := by
    simp [login, strTruthy, he1, hq1, habsent]
  have h2 : login checkpw db (some e2) (some p2) =
      ⟨401, false, "Неправильный email или пароль", none⟩ := by
    simp [login, strTruthy, he2, hq2, hfound, hwrong]
  rw [h1, h2]
  exact ⟨rfl, rfl, rfl⟩

/-- Witness for C8 at `exDB`, with string equality standing in for the
opaque password check: the unknown email "b@x.com" and alice's email with a
wrong password yield the identical 401 rejection. -/
theorem login_failure_indistinguishable_witness :
    login (fun h p => h == p) exDB (some "b@x.com") (some "pw") =
      login (fun h p => h == p) exDB (some "a@x.com") (some "wrong") ∧
    (login (fun h p => h == p) exDB (some "b@x.com") (some "pw")).status = 401 := by
  have h := login_failure_indistinguishable (fun h p => h == p) exDB "b@x.com" "pw"
    "a@x.com" "wrong" aliceU (by decide) (by decide) (by decide) (by decide)
    (by decide) (by decide) (by decide)
  exact ⟨h.1, h.2.1⟩

/-- Counterexample to C9 as stated: on a catalog whose only product carries
the empty string (a non-null value) as its category, `/products/categories`
returns [""] while the top-level `/categories` alias filters the falsy value
out and returns []. -/
theorem categories_alias_counterexample :
    get_categories_products_route exEmptyCatDB ≠
      get_categories_app_route exEmptyCatDB := by
  decide

/-- Claim C9 (amended): on every catalog state in which no product carries
the empty string as its category, GET /categories and GET
/products/categories return the same result — one sorted duplicate-free
list of the distinct non-null category strings. (In general the top-level
alias additionally drops empty-string categories, as the counterexample
shows.) -/
theorem categories_alias_agree (db : DB)
    (h : ∀ p ∈ db.products, p.category ≠ some "") :
    get_categories_app_route db = get_categories_products_route db ∧
    (get_categories_products_route db).Pairwise (fun a b => strLe a b = true) ∧
    (get_categories_products_route db).Nodup := by
  have hfilter : (distinctNonNullCategories db).filter (fun s => s != "") =
      distinctNonNullCategories db := by
    rw [List.filter_eq_self]
    intro s hs
    rw [distinctNonNullCategories, List.mem_dedup] at hs
    obtain ⟨p, hp, hcat⟩ := List.mem_filterMap.mp hs
    simp only [bne_iff_ne, ne_eq]
    intro hse
    subst hse
    exact h p hp hcat
  refine ⟨?_, ?_, ?_⟩
  · unfold get_categories_app_route get_categories_products_route
    rw [hfilter]
  · unfold get_categories_products_route
    haveI : IsTotal String (fun a b => strLe a b = true) := ⟨strLe_total⟩
    haveI : IsTrans String (fun a b => strLe a b = true) :=
      ⟨fun _ _ _ => strLe_trans⟩
    exact List.sorted_insertionSort _ _
  · unfold get_categories_products_route
    exact ((List.perm_insertionSort _ _).nodup_iff).mpr
      (List.nodup_dedup _)

/-- Witness for C9 (amended) at `exDB`, whose categories are "chairs" and
"tables": the two endpoints agree. -/
theorem categories_alias_agree_witness :
    get_categories_app_route exDB = get_categories_products_route exDB ∧
    get_categories_products_route exDB = ["chairs", "tables"] := by
  have h := categories_alias_agree exDB (by decide)
  exact ⟨h.1, by decide⟩

/-- Claim C10 (implicit): a page or per_page query parameter that does not
parse as an integer is silently replaced by its default (page 1,
per_page 12) rather than producing an error, so List succeeds (status 200)
on malformed pagination parameters. -/
theorem list_malformed_params_defaulted (db : DB) (user_id : Nat)
    (s t : String) (sort_byArg : Option String)
    (hs : parseInt? s = none) (ht : parseInt? t = none) :
    get_my_favorites db user_id (some s) (some t) sort_byArg =
      get_my_favorites_core db user_id 1 12 (sort_byArg.getD "name") ∧
    (get_my_favorites db user_id (some s) (some t) sort_byArg).status = 200 := by
  have h : get_my_favorites db user_id (some s) (some t) sort_byArg =
      get_my_favorites_core db user_id 1 12 (sort_byArg.getD "name") := by
    unfold get_my_favorites argsGetInt
    dsimp only
    rw [hs, ht]
    rfl
  refine ⟨h, ?_⟩
  rw [h]
  rfl

/-- Witness for C10: the unparseable parameters "abc" and "12x" fall back
to page 1 / per_page 12 on `exDB` with status 200. -/
theorem list_malformed_params_defaulted_witness :
    get_my_favorites exDB 1 (some "abc") (some "12x") none =
      get_my_favorites_core exDB 1 1 12 "name" ∧
    (get_my_favorites exDB 1 (some "abc") (some "12x") none).status = 200 := by
  have h := list_malformed_params_defaulted exDB 1 "abc" "12x" none
    (by decide) (by decide)
  exact ⟨h.1, h.2⟩

end ArBack
